import Mathlib

set_option maxRecDepth 10000

/-!
Verification of the natural-language-to-SQL translation pipeline of the
CollabSQL backend (`collabsql/backend/services/premium_nlp_service.py` and the
`/api/query/nl` route of `collabsql/backend/main.py`).

The Python code is shallowly embedded: dictionaries returned by the service
become the `TResult` structure, JSON values decoded by `json.loads` become the
`Json` inductive, the per-user context dictionary becomes a total map from
usernames to contexts (observationally equivalent to the lazily-initialised
Python dict), and exceptions become `Except.error`.  Wall-clock metadata
(latency numbers, token-usage counts) and file-system logging, which the
service computes but which never influence the data returned to the caller,
are not modelled; comments at the relevant definitions record this.
-/

/-- Python values produced by `json.loads` (and consumed by
`_parse_llm_response`).  Numbers keep their source lexeme: no claim compares
numeric values, so this avoids committing to a float semantics. -/
inductive Json where
  | null : Json
  | bool : Bool → Json
  | num : String → Json
  | str : String → Json
  | arr : List Json → Json
  | obj : List (String × Json) → Json

/- ---------- string helpers mirroring the Python string operations ---------- -/

/-- Index of the first occurrence of `needle` in `hay`, as in `str.find`. -/
def firstIdx (needle : List Char) : List Char → Option Nat
  | [] => if needle = [] then some 0 else none
  | c :: t =>
      if needle.isPrefixOf (c :: t) then some 0
      else (firstIdx needle t).map (· + 1)

/-- Python `sub in s` (substring containment). -/
def containsStr (s sub : String) : Bool :=
  (firstIdx sub.data s.data).isSome

/-- Python `s.split(sep, 1)[1]` when `sep` occurs in `s` (the guarded uses in
`_parse_llm_response` only call this after an `in` check). -/
def afterFirst (s sep : String) : String :=
  match firstIdx sep.data s.data with
  | some i => String.mk (s.data.drop (i + sep.data.length))
  | none => s

/-- Python `s.split(sep, 1)[0]`: the part before the first occurrence of
`sep`, or all of `s` when `sep` does not occur. -/
def beforeFirst (s sep : String) : String :=
  match firstIdx sep.data s.data with
  | some i => String.mk (s.data.take i)
  | none => s

/-- Python `l[-n:]`. -/
def takeLast {α : Type} (n : Nat) (l : List α) : List α :=
  l.drop (l.length - n)

/-- Characters stripped by Python `str.strip()`. -/
def pyWsChar (c : Char) : Bool :=
  c = ' ' || c = '\t' || c = '\n' || c = '\r' || c = Char.ofNat 11 || c = Char.ofNat 12

/-- Python `s.strip()`.  (Structural replacement for the byte-position-based
core `String.trim`, which the kernel cannot reduce.) -/
def pyStrip (s : String) : String :=
  String.mk (((s.data.dropWhile pyWsChar).reverse.dropWhile pyWsChar).reverse)

/-- Python `s.lower()` (ASCII inputs). -/
def toLowerStr (s : String) : String := String.mk (s.data.map Char.toLower)

/-- Python `s.upper()` (ASCII inputs). -/
def toUpperStr (s : String) : String := String.mk (s.data.map Char.toUpper)

/-- Python `s.startswith(p)`. -/
def startsWithStr (s p : String) : Bool := p.data.isPrefixOf s.data

/-- Python `s.replace(pat, rep)`: all non-overlapping occurrences, left to
right (`pat` is non-empty at the use site); fuelled recursion. -/
def replaceListF : Nat → List Char → List Char → List Char → List Char
  | 0, _, _, s => s
  | fuel + 1, pat, rep, s =>
      match s with
      | [] => []
      | c :: t =>
          if pat ≠ [] ∧ pat.isPrefixOf (c :: t) then
            rep ++ replaceListF fuel pat rep ((c :: t).drop pat.length)
          else c :: replaceListF fuel pat rep t

/-- Python `s.replace(pat, rep)`. -/
def replaceStr (s pat rep : String) : String :=
  String.mk (replaceListF (s.data.length + 1) pat.data rep.data s.data)

/-- Python `s.split()` (split on whitespace runs, dropping empty parts). -/
def splitWordsAux : List Char → List Char → List String
  | [], acc => if acc = [] then [] else [String.mk acc.reverse]
  | c :: t, acc =>
      if c.isWhitespace then
        (if acc = [] then splitWordsAux t [] else String.mk acc.reverse :: splitWordsAux t [])
      else splitWordsAux t (c :: acc)

/-- Python `s.split()`. -/
def splitWords (s : String) : List String := splitWordsAux s.data []

/-- The apostrophe character, used in the generated SQL literals. -/
def squote : Char := Char.ofNat 39

/- ---------- a model of Python's `json.loads` ---------- -/

/-- `str()` / `repr()` rendering of a decoded JSON value, as Python prints it
(single-quoted strings inside containers, `None`/`True`/`False`).  Only used
by the dead default branch of `_parse_llm_response`; fuelled recursion. -/
def pyRepr (fuel : Nat) (j : Json) : String :=
  match fuel with
  | 0 => ""
  | fuel + 1 =>
    match j with
    | .null => "None"
    | .bool b => if b then "True" else "False"
    | .num s => s
    | .str s => String.mk (squote :: s.data) ++ String.mk [squote]
    | .arr xs => "[" ++ String.intercalate ", " (xs.map (pyRepr fuel)) ++ "]"
    | .obj kvs =>
        "\x7b" ++
        String.intercalate ", "
          (kvs.map (fun p => pyRepr fuel (.str p.1) ++ ": " ++ pyRepr fuel p.2)) ++
        "\x7d"

/-- Python `str(x)` for a decoded JSON value: strings print bare, containers
print via `repr`. -/
def pyStr (j : Json) : String :=
  match j with
  | .str s => s
  | _ => pyRepr 1000 j

def jsonIsWs (c : Char) : Bool :=
  c = ' ' || c = '\t' || c = '\n' || c = '\r'

def skipWs : List Char → List Char
  | [] => []
  | c :: t => if jsonIsWs c then skipWs t else c :: t

def hexVal (c : Char) : Option Nat :=
  if '0' ≤ c ∧ c ≤ '9' then some (c.toNat - 48)
  else if 'a' ≤ c ∧ c ≤ 'f' then some (c.toNat - 87)
  else if 'A' ≤ c ∧ c ≤ 'F' then some (c.toNat - 55)
  else none

/-- Parse the body of a JSON string (after the opening quote). -/
def parseJStr (fuel : Nat) (s : List Char) (acc : List Char) :
    Except String (String × List Char) :=
  match fuel with
  | 0 => Except.error "Unterminated string"
  | fuel + 1 =>
    match s with
    | [] => Except.error "Unterminated string starting at"
    | '"' :: t => Except.ok (String.mk acc.reverse, t)
    | '\\' :: e :: t =>
        match e with
        | '"' => parseJStr fuel t ('"' :: acc)
        | '\\' => parseJStr fuel t ('\\' :: acc)
        | '/' => parseJStr fuel t ('/' :: acc)
        | 'b' => parseJStr fuel t (Char.ofNat 8 :: acc)
        | 'f' => parseJStr fuel t (Char.ofNat 12 :: acc)
        | 'n' => parseJStr fuel t ('\n' :: acc)
        | 'r' => parseJStr fuel t ('\r' :: acc)
        | 't' => parseJStr fuel t ('\t' :: acc)
        | 'u' =>
            match t with
            | a :: b :: c :: d :: t2 =>
                match hexVal a, hexVal b, hexVal c, hexVal d with
                | some x, some y, some z, some w =>
                    parseJStr fuel t2 (Char.ofNat (((x * 16 + y) * 16 + z) * 16 + w) :: acc)
                | _, _, _, _ => Except.error "Invalid \\uXXXX escape"
            | _ => Except.error "Invalid \\uXXXX escape"
        | _ => Except.error "Invalid \\escape"
    | '\\' :: [] => Except.error "Unterminated string escape"
    | c :: t => parseJStr fuel t (c :: acc)

def isJDigit (c : Char) : Bool := '0' ≤ c && c ≤ '9'

/-- Lex a JSON number; returns its lexeme. -/
def parseJNum (s : List Char) : Except String (String × List Char) :=
  let (sign, s1) := match s with
    | '-' :: t => (['-'], t)
    | _ => (([] : List Char), s)
  let intPart := s1.takeWhile isJDigit
  let s2 := s1.dropWhile isJDigit
  if intPart = [] then Except.error "Expecting value" else
  let (fracPart, s3) := match s2 with
    | '.' :: t =>
        let ds := t.takeWhile isJDigit
        if ds = [] then (([] : List Char), s2) else ('.' :: ds, t.dropWhile isJDigit)
    | _ => (([] : List Char), s2)
  let (expPart, s4) := match s3 with
    | 'e' :: t =>
        (let (es, t2) := match t with
          | '+' :: t3 => (['e', '+'], t3)
          | '-' :: t3 => (['e', '-'], t3)
          | _ => (['e'], t)
        let ds := t2.takeWhile isJDigit
        if ds = [] then (([] : List Char), s3) else (es ++ ds, t2.dropWhile isJDigit))
    | 'E' :: t =>
        (let (es, t2) := match t with
          | '+' :: t3 => (['E', '+'], t3)
          | '-' :: t3 => (['E', '-'], t3)
          | _ => (['E'], t)
        let ds := t2.takeWhile isJDigit
        if ds = [] then (([] : List Char), s3) else (es ++ ds, t2.dropWhile isJDigit))
    | _ => (([] : List Char), s3)
  Except.ok (String.mk (sign ++ intPart ++ fracPart ++ expPart), s4)

mutual

/-- Recursive-descent parser for a JSON value (Python `json.loads` grammar). -/
def parseJVal (fuel : Nat) (s : List Char) : Except String (Json × List Char) :=
  match fuel with
  | 0 => Except.error "Recursion limit"
  | fuel + 1 =>
    match skipWs s with
    | [] => Except.error "Expecting value"
    | '"' :: t => (parseJStr (t.length + 1) t []).map (fun p => (Json.str p.1, p.2))
    | '\x7b' :: t => parseJObj fuel (skipWs t) true
    | '[' :: t => parseJArr fuel (skipWs t) true
    | 't' :: t =>
        if ['r', 'u', 'e'].isPrefixOf t then Except.ok (Json.bool true, t.drop 3)
        else Except.error "Expecting value"
    | 'f' :: t =>
        if ['a', 'l', 's', 'e'].isPrefixOf t then Except.ok (Json.bool false, t.drop 4)
        else Except.error "Expecting value"
    | 'n' :: t =>
        if ['u', 'l', 'l'].isPrefixOf t then Except.ok (Json.null, t.drop 3)
        else Except.error "Expecting value"
    | s1 => (parseJNum s1).map (fun p => (Json.num p.1, p.2))

/-- Object members; `first` marks that no member has been read yet. -/
def parseJObj (fuel : Nat) (s : List Char) (first : Bool) :
    Except String (Json × List Char) :=
  match fuel with
  | 0 => Except.error "Recursion limit"
  | fuel + 1 =>
    match s with
    | '\x7d' :: t => if first then Except.ok (Json.obj [], t) else Except.error "Expecting member"
    | _ =>
      match parseJVal fuel s with
      | Except.error e => Except.error e
      | Except.ok (k, s1) =>
        match k with
        | Json.str key =>
          (match skipWs s1 with
          | ':' :: s2 =>
            match parseJVal fuel s2 with
            | Except.error e => Except.error e
            | Except.ok (v, s3) => parseJObjRest fuel s3 [(key, v)]
          | _ => Except.error "Expecting colon delimiter")
        | _ => Except.error "Expecting property name enclosed in double quotes"

/-- Remaining object members after the first. -/
def parseJObjRest (fuel : Nat) (s : List Char) (acc : List (String × Json)) :
    Except String (Json × List Char) :=
  match fuel with
  | 0 => Except.error "Recursion limit"
  | fuel + 1 =>
    match skipWs s with
    | '\x7d' :: t => Except.ok (Json.obj acc.reverse, t)
    | ',' :: s1 =>
        (match parseJVal fuel (skipWs s1) with
        | Except.error e => Except.error e
        | Except.ok (k, s2) =>
          match k with
          | Json.str key =>
            (match skipWs s2 with
            | ':' :: s3 =>
              match parseJVal fuel s3 with
              | Except.error e => Except.error e
              | Except.ok (v, s4) => parseJObjRest fuel s4 ((key, v) :: acc)
            | _ => Except.error "Expecting colon delimiter")
          | _ => Except.error "Expecting property name enclosed in double quotes")
    | _ => Except.error "Expecting comma delimiter"

/-- Array elements; `first` marks that no element has been read yet. -/
def parseJArr (fuel : Nat) (s : List Char) (first : Bool) :
    Except String (Json × List Char) :=
  match fuel with
  | 0 => Except.error "Recursion limit"
  | fuel + 1 =>
    match s with
    | ']' :: t => if first then Except.ok (Json.arr [], t) else Except.error "Expecting element"
    | _ =>
      match parseJVal fuel s with
      | Except.error e => Except.error e
      | Except.ok (v, s1) => parseJArrRest fuel s1 [v]

/-- Remaining array elements after the first. -/
def parseJArrRest (fuel : Nat) (s : List Char) (acc : List Json) :
    Except String (Json × List Char) :=
  match fuel with
  | 0 => Except.error "Recursion limit"
  | fuel + 1 =>
    match skipWs s with
    | ']' :: t => Except.ok (Json.arr acc.reverse, t)
    | ',' :: s1 =>
        (match parseJVal fuel s1 with
        | Except.error e => Except.error e
        | Except.ok (v, s2) => parseJArrRest fuel s2 (v :: acc))
    | _ => Except.error "Expecting comma delimiter"

end

/-- Python `json.loads`: parse one JSON document and require only trailing
whitespace after it. -/
def jsonLoads (s : String) : Except String Json :=
  match parseJVal (s.data.length + 1) s.data with
  | Except.error e => Except.error e
  | Except.ok (v, rest) =>
      if skipWs rest = [] then Except.ok v else Except.error "Extra data"

/- ---------- the result dictionaries built by the service ---------- -/

/-- The dictionaries returned by `PremiumNLPService`.  `rtype` is the `"type"`
key; an `Option` field is `none` when the corresponding key is absent from the
dictionary.  The `usage`/`latency` keys attached on the LLM success path carry
wall-clock and token metadata only and are not modelled. -/
structure TResult where
  rtype : String
  query : Option Json := none
  queryType : Option Json := none
  explanation : Option Json := none
  target_table : Option Json := none
  message : Option Json := none
  error_details : Option Json := none
  steps : Option (List String) := none
  /-- The `"error"` key set by `query_nl` when executing the SQL raises. -/
  error_field : Option String := none
  /-- Length of the `"result"` rows list attached by `query_nl` on a read
  (row contents come from the external database and are left opaque). -/
  rows : Option Nat := none
  /-- The `"changes"` count attached by `query_nl` on a write. -/
  changes : Option Nat := none

/-- Python `dict.get k` (duplicate JSON keys: the later one wins, as in a
Python dict built by `json.loads`). -/
def dictGet (kvs : List (String × Json)) (k : String) : Option Json :=
  (kvs.reverse.find? (fun p => p.1 = k)).map (fun p => p.2)

/-- Python `dict.get k default`. -/
def dictGetD (kvs : List (String × Json)) (k : String) (d : Json) : Json :=
  (dictGet kvs k).getD d

/-- The branch analysis of `_parse_llm_response` after `json.loads`
succeeded.  A non-dict document makes `data.get` raise `AttributeError`; a
`"sql"` document without a `"query"` key makes `data["query"]` raise
`KeyError`. -/
def classifyParsed (data : Json) : Except String TResult :=
  match data with
  | Json.obj kvs =>
      match dictGetD kvs "type" (Json.str "info") with
      | Json.str "sql" =>
          (match dictGet kvs "query" with
          | none => Except.error "KeyError: query"
          | some q =>
              Except.ok
                { rtype := "sql"
                  query := some q
                  queryType := some (dictGetD kvs "queryType" (Json.str "SELECT"))
                  explanation := some (dictGetD kvs "explanation" (Json.str "Executing query"))
                  target_table := some (dictGetD kvs "target_table" Json.null) })
      | Json.str "info" =>
          Except.ok { rtype := "info", message := some (dictGetD kvs "message" (Json.str "")) }
      | Json.str "clarification" =>
          Except.ok { rtype := "clarification"
                      message := some (dictGetD kvs "message" (Json.str "Could you clarify?")) }
      | Json.str "error" =>
          Except.ok { rtype := "error"
                      message := some (dictGetD kvs "message" (Json.str "Something went wrong.")) }
      | _ =>
          Except.ok { rtype := "info"
                      message := some (dictGetD kvs "message" (Json.str (pyStr data))) }
  | _ => Except.error "AttributeError: object has no attribute get"

/-- The fence-stripping prelude of `_parse_llm_response`. -/
def stripFences (raw : String) : String :=
  if containsStr raw "```json" then
    pyStrip (beforeFirst (afterFirst raw "```json") "```")
  else if containsStr raw "```" then
    pyStrip (beforeFirst (afterFirst raw "```") "```")
  else raw

/-- `PremiumNLPService._parse_llm_response`: strip markdown code fences, then
`json.loads`, then classify.  `Except.error` is an exception propagating to
the caller (`_llm_process` catches it in its `except` block). -/
def parseLLMResponse (raw : String) : Except String TResult :=
  match jsonLoads (stripFences raw) with
  | Except.error e => Except.error e
  | Except.ok data => classifyParsed data

/- ---------- ContextMemory ---------- -/

/-- One entry of a user's bounded history: the `{"query": ..., "sql": ...,
"table": ...}` dict appended by `ContextMemory.update`. -/
structure HistEntry where
  query : String
  sql : Option String
  table : Option String
deriving DecidableEq

/-- The per-user dict created lazily by `ContextMemory._get_context`. -/
structure UserCtx where
  active_table : Option String := none
  last_query : Option String := none
  last_sql : Option String := none
  history : List HistEntry := []
deriving DecidableEq

/-- `ContextMemory.user_contexts`.  The Python dict inserts a default context
on first access, so it is observationally a total map from usernames to
contexts defaulting to the empty context; every read goes through
`_get_context`. -/
abbrev Mem := String → UserCtx

/-- A fresh `ContextMemory()`. -/
def initMem : Mem := fun _ => {}

/-- Python truthiness of an `Optional[str]` (`None` and `""` are falsy). -/
def pyTruthy (s : Option String) : Bool :=
  match s with
  | some t => t ≠ ""
  | none => false

/-- Python truthiness of a decoded JSON value.  (A JSON numeral denotes zero
exactly when its lexeme has no digit 1–9.) -/
def jsonTruthy (j : Json) : Bool :=
  match j with
  | .null => false
  | .bool b => b
  | .num s => s.data.any (fun c => '1' ≤ c && c ≤ '9')
  | .str s => s ≠ ""
  | .arr xs => !xs.isEmpty
  | .obj kvs => !kvs.isEmpty

/-- `ContextMemory.update`: set the active table only when `table` is truthy,
record the last query/SQL, append to the history and trim it to the last 10
entries. -/
def ctxUpdate (m : Mem) (username : String) (table : Option String)
    (query : String) (sql : Option String) : Mem :=
  fun w =>
    if w = username then
      let c := m username
      let c := if pyTruthy table then { c with active_table := table } else c
      let hist := c.history ++ [⟨query, sql, table⟩]
      { c with
        last_query := some query
        last_sql := sql
        history := if hist.length > 10 then takeLast 10 hist else hist }
    else m w

/-- `ContextMemory.get_summary`. -/
def getSummary (m : Mem) (username : String) : String :=
  let c := m username
  let parts :=
    (if pyTruthy c.active_table then ["Active table: " ++ c.active_table.getD ""] else []) ++
    (if pyTruthy c.last_query then ["Last query: " ++ c.last_query.getD ""] else []) ++
    (if pyTruthy c.last_sql then ["Last SQL: " ++ c.last_sql.getD ""] else [])
  if parts ≠ [] then String.intercalate "\n" parts else "No prior context."

/-- `ContextMemory.get_active_table`. -/
def getActiveTable (m : Mem) (username : String) : Option String :=
  (m username).active_table

/- ---------- the API-key pool ---------- -/

/-- `PremiumNLPService._rotate_key`: `(returned bool, new current_key_index)`.
The client re-initialisation it triggers has no observable effect beyond the
index (the client is rebuilt from `api_keys[current_key_index]`). -/
def rotateKey (keys : List String) (idx : Nat) : Bool × Nat :=
  if keys = [] ∨ keys.length ≤ 1 then (false, idx)
  else (true, (idx + 1) % keys.length)

/-- The filter `_load_api_keys` applies to entries of `api_keys.json`:
truthy, no `"PASTE"` in the uppercased key, and length strictly above 10. -/
def validKey (k : String) : Bool :=
  k ≠ "" && !containsStr (toUpperStr k) "PASTE" && k.length > 10

/-- `PremiumNLPService._load_api_keys`.  `fileExists`/`fileKeys` model
`api_keys.json` (its `"keys"` list), `envKey` the `GEMINI_API_KEY`
environment variable.  The `except` path (unreadable file) returns `[]` and
is outside this I/O-free embedding. -/
def loadApiKeys (fileExists : Bool) (fileKeys : List String) (envKey : Option String) :
    List String :=
  let filtered := fileKeys.filter validKey
  if fileExists ∧ filtered ≠ [] then filtered
  else
    match envKey with
    | some e => if e ≠ "" ∧ !containsStr (toUpperStr e) "PASTE" then [e] else []
    | none => []

/- ---------- schema descriptors and prompt construction ---------- -/

/-- A column descriptor as consumed by `_build_prompt` (`name`, `type`,
`pk`, `notnull` keys of the cached schema JSON). -/
structure Column where
  name : String
  ctype : String
  pk : Bool
  notnull : Bool
deriving DecidableEq

/-- A table descriptor (`name`, `columns`, optional `rowCount`). -/
structure Table where
  name : String
  columns : List Column
  rowCount : Option Nat
deriving DecidableEq

/-- The cached schema handed to `process_query`. -/
structure Schema where
  tables : List Table
deriving DecidableEq

/-- One line of column detail inside the schema block of the prompt. -/
def colLine (c : Column) : String :=
  "    " ++ c.name ++ " " ++ c.ctype ++
  (if c.pk then " [PK]" else "") ++ (if c.notnull then " NOT NULL" else "")

/-- The `TABLE:` block of the prompt for one table. -/
def tableInfo (t : Table) : String :=
  "  TABLE: " ++ t.name ++ " (" ++
  (match t.rowCount with | some n => toString n | none => "?") ++ " rows)\n" ++
  String.intercalate "\n" (t.columns.map colLine)

/-- The `DATABASE SCHEMA` section of the prompt. -/
def schemaStr (schema : Schema) : String :=
  String.intercalate "\n\n" (schema.tables.map tableInfo)

/-- Python `a or b` for an optional string against a string default. -/
def pyOrD (s : Option String) (d : String) : String :=
  match s with
  | some t => if t = "" then d else t
  | none => t0 d
where t0 (d : String) : String := d

/-- One rendered history line `  {role}: {content}` of `_build_prompt`.
A non-dict message makes `msg.get` raise `AttributeError`; a `content` value
that is neither a string nor a list makes the `[:300]` slice raise
`TypeError`.  These exceptions happen before the `try` block of
`_llm_process` and therefore escape. -/
def convLine (msg : Json) : Except String String :=
  match msg with
  | Json.obj kvs =>
      let role := dictGetD kvs "role" (Json.str "user")
      match dictGetD kvs "content" (Json.str "") with
      | Json.str s => Except.ok ("  " ++ pyStr role ++ ": " ++ String.mk (s.data.take 300))
      | Json.arr xs => Except.ok ("  " ++ pyStr role ++ ": " ++ pyStr (Json.arr (xs.take 300)))
      | _ => Except.error "TypeError: object is not subscriptable"
  | _ => Except.error "AttributeError: object has no attribute get"

/-- Render every recent history line. -/
def convLinesE : List Json → Except String (List String)
  | [] => Except.ok []
  | msg :: rest => do
      let l ← convLine msg
      let ls ← convLinesE rest
      pure (l :: ls)

/-- `PremiumNLPService._build_prompt`.  Evaluated before the `try` block of
`_llm_process`, so its exceptions (from malformed conversation-history
entries) propagate to the caller of `process_query`. -/
def buildPrompt (userQuery : String) (schema : Schema) (activeTable : Option String)
    (history : List Json) (username : String) (m : Mem) : Except String String := do
  let schemaS := schemaStr schema
  let recent := if history.isEmpty then [] else takeLast 6 history
  let convLs ← convLinesE recent
  let convS := String.intercalate "\n" convLs
  let contextS := getSummary m username
  pure
    ("ROLE: You are the Senior AI Database Architect. Your mission is to provide INDUSTRY-GRADE SQLite responses with absolute precision.\n            \nOBJECTIVE: Convert natural language into optimized, secure, and accurate SQLite queries. You are running on a Lite engine, so you MUST compensate by using advanced logical reasoning and strict adherence to SQL standards.\n\nDATABASE SCHEMA:\n"
      ++ schemaS
      ++ "\n\nCONVERSATION STATE:\n- Active Table Context: "
      ++ pyOrD activeTable "Global/Implicit"
      ++ "\n- Analytical Context: "
      ++ contextS
      ++ "\n- History: "
      ++ convS
      ++ "\n\n--- ARCHITECTURAL CONSTRAINTS ---\n1. SCHEMA TRUTH: Use ONLY columns and tables defined above. Case sensitivity matters for double-quoted identifiers.\n2. LOGICAL PIPELINE:\n   - Identify the primary intent (Read, Write, Info).\n   - Resolve ambiguous references using history/active table.\n   - For SQL: Build the WHERE filters first, then Aggregates, then Sort/Limit.\n3. SQLITE PRECISION: Use SQLite logic (|| for concat, strftime for dates, LIMIT for top).\n4. ERROR PREVENTION: If a query might fail due to missing data or schema mismatch, provide a clarifying response instead.\n\n--- CRITICAL REASONING & ACCURACY RULES ---\n- NULL RESILIENCE: Apply `WHERE x IS NOT NULL` for all MIN/MAX/SUM/AVG and ORDER BY. This is non-negotiable for accuracy.\n- JOIN INTEGRITY: Use explicit aliases (e.g., `FROM Table t JOIN Table m ON t.ID = m.ID`) for self-joins.\n- DATA SECURITY: Only perform the specific operation requested. Do not drop tables unless explicitly asked by 'Admin'.\n- CASE INSENSITIVITY: Wrap column comparisons in `UPPER()` or `LOWER()` for standard text fields.\n\n--- RESPONSE SPECIFICATION ---\nReturn ONLY a valid JSON object.\n\nA. FOR DATA OPERATIONS (SELECT/INSERT/UPDATE/DELETE):\n\x7b\n  \"type\": \"sql\",\n  \"query\": \"<optimized_sql_string>\",\n  \"queryType\": \"SELECT\" | \"WRITE\",\n  \"explanation\": \"<pro_tier_explanation>\",\n  \"target_table\": \"<table_name>\"\n\x7d\n\nB. FOR KNOWLEDGE/GREETINGS/CLARIFICATION:\n\x7b\n  \"type\": \"info\" | \"clarification\",\n  \"message\": \"<helpful_expert_response>\"\n\x7d\n\nUSER INPUT: \""
      ++ userQuery
      ++ "\"\n")

/- ---------- the LLM call loop (`_llm_process`) ---------- -/

/-- Outcome of `_llm_process`: the returned dict, the final
`current_key_index`, how many times `_rotate_key` advanced the index, the
provider calls made (model name actually passed to `generate_content`, key
index active for the call, in order), and the context memory afterwards. -/
structure LLMOut where
  result : TResult
  keyIndex : Nat
  rotations : Nat
  calls : List (String × Nat)
  mem : Mem

/-- The error substrings `_llm_process` classifies as rotatable. -/
def rotatableSignals : List String :=
  ["429", "RESOURCE_EXHAUSTED", "503", "500", "Deadline Exceeded"]

/-- The terminal error dict of `_llm_process`.  Python interpolates the
measured wall-clock latency into the message
(`AI Engine Exhausted (Latency: {x}s). ...`); the timing fragment is
abstracted away here. -/
def exhaustedResult (e : String) : TResult :=
  { rtype := "error"
    message := some (Json.str "AI Engine Exhausted. All keys and models are reaching limits.")
    error_details := some (Json.str e) }

/-- `result.get("target_table") or active_table`, narrowed to the
`Optional[str]` annotation of `ContextMemory.update` (a truthy non-string
target_table would be stored as-is by Python; it is rendered via `str` here —
only reachable from a malformed provider reply). -/
def tableFromResult (tt : Option Json) (active : Option String) : Option String :=
  match tt with
  | some j => if jsonTruthy j then some (pyStr j) else active
  | none => active

/-- `result.get("query")`, narrowed to the `Optional[str]` annotation of
`ContextMemory.update`'s `sql` parameter. -/
def sqlFromResult (q : Option Json) : Option String :=
  match q with
  | some (Json.str s) => some s
  | some Json.null => none
  | none => none
  | some j => some (pyStr j)

/-- Sentinel returned on fuel exhaustion; the sufficiency lemmas below show
it is unreachable for the fuel `llmProcess` supplies. -/
def fuelOut : LLMOut := ⟨{ rtype := "fuelout" }, 0, 0, [], initMem⟩

/-- `PremiumNLPService._llm_process`.  The prompt is built *before* the
`try` block, so `buildPrompt` exceptions propagate (`Except.error`).  Inside
the `try`, a provider failure or a `_parse_llm_response` exception lands in
the `except` block: rotatable errors rotate the key and retry while
`retry_count < len(api_keys) - 1`; otherwise the model drops once from
`gemini-1.5-flash` (called as `gemini-1.5-flash-latest`) to
`gemini-1.5-flash-8b`; otherwise the exhausted error dict is returned.
`usage`, `latency` and `steps` metadata attached on the success path carry
timing/token numbers only and are not modelled (process_query strips
`steps` before returning). -/
def llmProcessF : Nat → List String → (String → Nat → Except String String) →
    String → Schema → Option String → List Json → String → Mem →
    Nat → Nat → String → Except String LLMOut
  | 0, _, _, _, _, _, _, _, _, _, _, _ => Except.ok fuelOut
  | fuel + 1, keys, provider, userQuery, schema, activeTable, history, username,
      mem, idx, retryCount, modelName =>
    match buildPrompt userQuery schema activeTable history username mem with
    | Except.error e => Except.error e
    | Except.ok _prompt =>
      let targetModel :=
        if modelName = "gemini-1.5-flash" then "gemini-1.5-flash-latest" else modelName
      let attempt : Except String TResult :=
        match provider targetModel idx with
        | Except.error e => Except.error e
        | Except.ok raw => parseLLMResponse (pyStrip raw)
      match attempt with
      | Except.ok r =>
          let sql := sqlFromResult r.query
          let table := tableFromResult r.target_table activeTable
          Except.ok ⟨r, idx, 0, [(targetModel, idx)], ctxUpdate mem username table userQuery sql⟩
      | Except.error e =>
          let isRotatable := rotatableSignals.any (fun sig => containsStr e sig)
          if startsWithStr modelName "gemini-1.5" then
            if isRotatable ∧ (retryCount : Int) < (keys.length : Int) - 1 then
              match rotateKey keys idx with
              | (true, idx2) =>
                  (match llmProcessF fuel keys provider userQuery schema activeTable
                      history username mem idx2 (retryCount + 1) modelName with
                  | Except.error e2 => Except.error e2
                  | Except.ok out =>
                      Except.ok { out with
                        rotations := out.rotations + 1
                        calls := (targetModel, idx) :: out.calls })
              | (false, _) => Except.ok ⟨exhaustedResult e, idx, 0, [(targetModel, idx)], mem⟩
            else if modelName ≠ "gemini-1.5-flash-8b" then
              match llmProcessF fuel keys provider userQuery schema activeTable
                  history username mem idx 0 "gemini-1.5-flash-8b" with
              | Except.error e2 => Except.error e2
              | Except.ok out => Except.ok { out with calls := (targetModel, idx) :: out.calls }
            else Except.ok ⟨exhaustedResult e, idx, 0, [(targetModel, idx)], mem⟩
          else Except.ok ⟨exhaustedResult e, idx, 0, [(targetModel, idx)], mem⟩

/-- Fuel sufficient for the whole retry tree of `_llm_process` from its
entry point (proved sufficient below). -/
def llmFuel (keys : List String) : Nat := 2 * keys.length + 2

/-- `_llm_process` as invoked by `process_query`: `retry_count = 0`,
`model_name = "gemini-1.5-flash"`. -/
def llmProcess (keys : List String) (provider : String → Nat → Except String String)
    (userQuery : String) (schema : Schema) (activeTable : Option String)
    (history : List Json) (username : String) (mem : Mem) (idx : Nat) :
    Except String LLMOut :=
  llmProcessF (llmFuel keys) keys provider userQuery schema activeTable history
    username mem idx 0 "gemini-1.5-flash"

/- ---------- `process_query` ---------- -/

/-- Outcome of `process_query`: the returned dict, the context memory, the
final key index and the provider calls made. -/
structure PQOut where
  result : TResult
  mem : Mem
  keyIndex : Nat
  calls : List (String × Nat)

/-- The early-return error dict of `process_query` when no provider client
exists (note it keeps its `steps` key: the `del result["steps"]` at the end
of `process_query` is never reached by this `return`). -/
def unavailableResult : TResult :=
  { rtype := "error"
    message := some (Json.str "The AI assistant is currently unavailable. Please check your Google Cloud configuration or try again in a moment.")
    steps := some ["Attempted AI synthesis...", "AI connection failed."] }

/-- `selected_table or self.context.get_active_table(username)`. -/
def resolveActive (selectedTable : Option String) (mem : Mem) (username : String) :
    Option String :=
  match selectedTable with
  | some s => if s = "" then getActiveTable mem username else some s
  | none => getActiveTable mem username

/-- `PremiumNLPService.process_query`.  `client` records whether
`_init_client` produced a provider client.  `_log_query` (file I/O wrapped
in its own catch-all `except`, which also swallows the `NameError` from its
reference to an undefined `result` variable) has no effect on the returned
value and is not modelled.  `_fallback_process` is never invoked here: when
no client exists the hardcoded unavailable-error dict is returned. -/
def processQuery (client : Bool) (keys : List String) (idx : Nat)
    (provider : String → Nat → Except String String) (mem : Mem)
    (userQuery : String) (schema : Schema) (conversationHistory : List Json)
    (selectedTable : Option String) (username : String) : Except String PQOut :=
  let active := resolveActive selectedTable mem username
  if client then
    match llmProcess keys provider userQuery schema active conversationHistory username mem idx with
    | Except.error e => Except.error e
    | Except.ok out => Except.ok ⟨out.result, out.mem, out.keyIndex, out.calls⟩
  else Except.ok ⟨unavailableResult, mem, idx, []⟩

/- ---------- the `/api/query/nl` route (`main.py`, `query_nl`) ---------- -/

/-- The parameters of `PremiumNLPService.process_query` after `self`,
transcribed from its signature (premium_nlp_service.py lines 123–130). -/
def processQueryParams : List String :=
  ["user_query", "schema", "conversation_history", "selected_table", "username"]

/-- The keyword arguments of the `premium_nlp_service.process_query(...)`
call in `query_nl` (main.py lines 701–708), which also passes four
positional arguments. -/
def queryNlCallKwargs : List String := ["username", "db_path"]

/-- Python call binding: every keyword argument must name a parameter
(`process_query` declares no `**kwargs`), otherwise the call raises
`TypeError`. -/
def queryNlCallBindsOk : Bool :=
  queryNlCallKwargs.all (fun k => processQueryParams.contains k)

/-- The post-execution step of `query_nl`: if the NLP result is a truthy SQL
result, execute it against the database (modelled by the oracle `execQ`,
returning a row count for reads / a change count for writes, or the raised
exception).  On an execution exception the result is converted in place to
an error (`result["error"] = str(e)`, `result["type"] = "error"`); no
re-prompt of the provider happens (the function has no access to it).
Commit recording and schema-refresh on structural writes touch only the
external system database and are not modelled. -/
def queryNlExec (r : TResult) (execQ : String → Except String Nat) : TResult :=
  if r.rtype = "sql" ∧ (match r.query with | some j => jsonTruthy j | none => false) = true then
    match r.query with
    | some (Json.str sql) =>
        let qU := toUpperStr (pyStrip sql)
        let isRead := startsWithStr qU "SELECT" || startsWithStr qU "PRAGMA" || startsWithStr qU "WITH"
        (match execQ sql with
        | Except.error e => { r with rtype := "error", error_field := some e }
        | Except.ok n =>
            let oldExpl :=
              match r.explanation with
              | some j => if jsonTruthy j then pyStr j else ""
              | none => ""
            if isRead then
              { r with
                rows := some n
                explanation := some (Json.str
                  ((if n > 0 then
                      "**[Result: Found " ++ toString n ++ " records]**\n\n"
                    else "**[Result: No records found matching the criteria]**\n\n") ++ oldExpl)) }
            else
              { r with
                changes := some n
                explanation := some (Json.str
                  ("**[Result: Success, " ++ toString n ++ " row(s) affected]**\n\n" ++ oldExpl)) })
    | _ =>
        -- a truthy non-string query value would make `cursor.execute` raise,
        -- which the surrounding `except` converts to an error result
        { r with rtype := "error", error_field := some "TypeError: execute argument must be str" }
  else r

/-- `query_nl` (schema already fetched from the cache): the call into
`process_query` binds its arguments first — it passes `db_path=`, which
`process_query` does not declare, so Python raises `TypeError` before any
provider work happens.  The remainder (the post-execution step) is the dead
code modelled by `queryNlExec`. -/
def queryNl (client : Bool) (keys : List String) (idx : Nat)
    (provider : String → Nat → Except String String) (mem : Mem)
    (userQuery : String) (schema : Schema) (conversationHistory : List Json)
    (selectedTable : Option String) (username : String)
    (execQ : String → Except String Nat) : Except String (TResult × List (String × Nat)) :=
  if !queryNlCallBindsOk then
    Except.error "TypeError: process_query() got an unexpected keyword argument"
  else
    match processQuery client keys idx provider mem userQuery schema
        conversationHistory selectedTable username with
    | Except.error e => Except.error e
    | Except.ok out => Except.ok (queryNlExec out.result execQ, out.calls)

/- ---------- regular-expression search for the fallback matcher ---------- -/

/-- `\w` of Python's `re` (ASCII range; schema names and lowercased queries
stay in ASCII). -/
def isWordChar (c : Char) : Bool := c.isAlphanum || c = '_'

/-- `\s` of Python's `re`. -/
def isSpaceChar (c : Char) : Bool :=
  c = ' ' || c = '\t' || c = '\n' || c = '\r' || c = Char.ofNat 11 || c = Char.ofNat 12

/-- `["']` character class. -/
def isQuoteChar (c : Char) : Bool := c = '"' || c = squote

/-- Regular expressions as used by `_fallback_process` / `_fallback_update`:
literals, single-character classes, sequencing, alternation, greedy/lazy
star/plus/option, and numbered capture groups. -/
inductive Rx where
  | lit : List Char → Rx
  | cls : (Char → Bool) → Rx
  | seq : Rx → Rx → Rx
  | alt : Rx → Rx → Rx
  | star : Bool → Rx → Rx
  | plus : Bool → Rx → Rx
  | opt : Bool → Rx → Rx
  | grp : Nat → Rx → Rx

/-- Captured groups: newest first; lookup takes the most recent capture of a
group, matching Python's last-match semantics for repeated groups. -/
abbrev Caps := List (Nat × List Char)

/-- Backtracking matcher in continuation style with Python's ordering:
alternation prefers the left branch, greedy repetition prefers consuming,
lazy repetition prefers the continuation.  Star iterations must consume
input (the patterns below have no nullable repetition bodies).  `fuel`
bounds the backtracking depth. -/
def mrun : Nat → Rx → List Char → Caps → (List Char → Caps → Option Caps) → Option Caps
  | 0, _, _, _, _ => none
  | fuel + 1, r, s, caps, k =>
    match r with
    | .lit cs => if cs.isPrefixOf s then k (s.drop cs.length) caps else none
    | .cls f =>
        (match s with
        | c :: rest => if f c then k rest caps else none
        | [] => none)
    | .seq a b => mrun fuel a s caps (fun s1 c1 => mrun fuel b s1 c1 k)
    | .alt a b =>
        (match mrun fuel a s caps k with
        | some res => some res
        | none => mrun fuel b s caps k)
    | .opt g r1 =>
        if g then
          match mrun fuel r1 s caps k with
          | some res => some res
          | none => k s caps
        else
          match k s caps with
          | some res => some res
          | none => mrun fuel r1 s caps k
    | .star g r1 =>
        let iter := fun s1 c1 =>
          if s1.length < s.length then mrun fuel (.star g r1) s1 c1 k else none
        if g then
          match mrun fuel r1 s caps iter with
          | some res => some res
          | none => k s caps
        else
          match k s caps with
          | some res => some res
          | none => mrun fuel r1 s caps iter
    | .plus g r1 => mrun fuel (.seq r1 (.star g r1)) s caps k
    | .grp i r1 =>
        mrun fuel r1 s caps (fun s1 c1 => k s1 ((i, s.take (s.length - s1.length)) :: c1))

/-- `re.search`: try a match at each position, leftmost first. -/
def rsearch (pat : Rx) : List Char → Option Caps
  | [] => mrun 1 pat [] [] (fun _ caps => some caps)
  | c :: t =>
      match mrun ((c :: t).length * 8 + 64) pat (c :: t) [] (fun _ caps => some caps) with
      | some caps => some caps
      | none => rsearch pat t

/-- `m.group(i)` of a successful search. -/
def capGet (caps : Caps) (i : Nat) : Option String :=
  (caps.find? (fun p => p.1 = i)).map (fun p => String.mk p.2)

/-- `(?:starts?|starting)\s+with\s+["']?([a-zA-Z]+)["']?` -/
def startsPat : Rx :=
  .seq (.alt (.seq (.lit "start".data) (.opt true (.cls (fun c => c = 's')))) (.lit "starting".data))
    (.seq (.plus true (.cls isSpaceChar))
      (.seq (.lit "with".data)
        (.seq (.plus true (.cls isSpaceChar))
          (.seq (.opt true (.cls isQuoteChar))
            (.seq (.grp 1 (.plus true (.cls Char.isAlpha)))
              (.opt true (.cls isQuoteChar)))))))

/-- `(?:ends?|ending)\s+with\s+["']?([a-zA-Z]+)["']?` -/
def endsPat : Rx :=
  .seq (.alt (.seq (.lit "end".data) (.opt true (.cls (fun c => c = 's')))) (.lit "ending".data))
    (.seq (.plus true (.cls isSpaceChar))
      (.seq (.lit "with".data)
        (.seq (.plus true (.cls isSpaceChar))
          (.seq (.opt true (.cls isQuoteChar))
            (.seq (.grp 1 (.plus true (.cls Char.isAlpha)))
              (.opt true (.cls isQuoteChar)))))))

/-- `(?:top|limit|first)\s+(\d+)` -/
def limitPat : Rx :=
  .seq (.alt (.lit "top".data) (.alt (.lit "limit".data) (.lit "first".data)))
    (.seq (.plus true (.cls isSpaceChar)) (.grp 1 (.plus true (.cls Char.isDigit))))

/-- `update\s+(\w[\w\s]*?)\s+['"](\w+)['"]\s+(?:to|as)\s+['"]?(\w+)['"]?` -/
def updPat1 : Rx :=
  .seq (.lit "update".data)
    (.seq (.plus true (.cls isSpaceChar))
      (.seq (.grp 1 (.seq (.cls isWordChar)
                      (.star false (.cls (fun c => isWordChar c || isSpaceChar c)))))
        (.seq (.plus true (.cls isSpaceChar))
          (.seq (.cls isQuoteChar)
            (.seq (.grp 2 (.plus true (.cls isWordChar)))
              (.seq (.cls isQuoteChar)
                (.seq (.plus true (.cls isSpaceChar))
                  (.seq (.alt (.lit "to".data) (.lit "as".data))
                    (.seq (.plus true (.cls isSpaceChar))
                      (.seq (.opt true (.cls isQuoteChar))
                        (.seq (.grp 3 (.plus true (.cls isWordChar)))
                          (.opt true (.cls isQuoteChar)))))))))))))

/-- `update\s+(\w[\w\s]*?)\s+of\s+(\w+)\s+(?:as|to)\s+(\w+)` -/
def updPat2 : Rx :=
  .seq (.lit "update".data)
    (.seq (.plus true (.cls isSpaceChar))
      (.seq (.grp 1 (.seq (.cls isWordChar)
                      (.star false (.cls (fun c => isWordChar c || isSpaceChar c)))))
        (.seq (.plus true (.cls isSpaceChar))
          (.seq (.lit "of".data)
            (.seq (.plus true (.cls isSpaceChar))
              (.seq (.grp 2 (.plus true (.cls isWordChar)))
                (.seq (.plus true (.cls isSpaceChar))
                  (.seq (.alt (.lit "as".data) (.lit "to".data))
                    (.seq (.plus true (.cls isSpaceChar))
                      (.grp 3 (.plus true (.cls isWordChar))))))))))))

/- ---------- the local fallback matcher ---------- -/

/-- `PremiumNLPService._find_name_col`. -/
def findNameCol (colNames : List String) : Option String :=
  match colNames.find? (fun c => toLowerStr c = "first_name" || toLowerStr c = "name") with
  | some c => some c
  | none =>
      match colNames.find? (fun c => containsStr (toLowerStr c) "name" || containsStr (toLowerStr c) "first") with
      | some c => some c
      | none => colNames.head?

/-- `PremiumNLPService._match_column`. -/
def matchColumn (phrase : String) (colNames : List String) : Option String :=
  let phraseLower := replaceStr (toLowerStr phrase) " " "_"
  match colNames.find? (fun c => toLowerStr c = phraseLower) with
  | some c => some c
  | none =>
      match colNames.find? (fun c =>
          containsStr (toLowerStr c) phraseLower || containsStr phraseLower (toLowerStr c)) with
      | some c => some c
      | none =>
          let words := splitWords (toLowerStr phrase)
          colNames.find? (fun c => words.all (fun w => containsStr (toLowerStr c) w))

/-- The canned-answer lookup table of `_answer_question_fallback`, in source
order (Python iterates the dict in insertion order). -/
def fallbackAnswers : List (String × String) :=
  [("primary key", "A PRIMARY KEY uniquely identifies each row in a table. It must be unique and cannot be NULL. Each table can have only one primary key."),
   ("foreign key", "A FOREIGN KEY creates a link between two tables by referencing the primary key of another table, enforcing referential integrity."),
   ("index", "An INDEX speeds up data retrieval by creating a quick lookup structure, similar to a book's index. It improves SELECT performance but adds overhead to INSERT/UPDATE/DELETE."),
   ("normalization", "Normalization organizes data to minimize redundancy. Common forms: 1NF (atomic values), 2NF (no partial dependencies), 3NF (no transitive dependencies)."),
   ("join", "A JOIN combines rows from multiple tables. Types: INNER JOIN (matching rows only), LEFT JOIN (all left + matching right), RIGHT JOIN, FULL OUTER JOIN, CROSS JOIN."),
   ("constraint", "Constraints enforce data rules: PRIMARY KEY, FOREIGN KEY, UNIQUE, NOT NULL, CHECK, DEFAULT."),
   ("sql", "SQL (Structured Query Language) is the standard language for managing relational databases. It includes commands for querying (SELECT), modifying (INSERT/UPDATE/DELETE), and defining data structures (CREATE/ALTER/DROP)."),
   ("database", "A database is an organized collection of structured data stored electronically. Relational databases organize data into tables with rows and columns, linked by keys."),
   ("ai", "AI (Artificial Intelligence) is the simulation of human intelligence by computer systems. It includes machine learning, natural language processing, and computer vision. I'm an AI assistant focused on helping you with database queries!"),
   ("machine learning", "Machine Learning is a subset of AI where systems learn from data to improve performance without explicit programming. Common types: supervised, unsupervised, and reinforcement learning.")]

/-- `PremiumNLPService._answer_question_fallback`. -/
def answerQuestionFallback (lower : String) : TResult :=
  match fallbackAnswers.find? (fun p => containsStr lower p.1) with
  | some p => { rtype := "info", message := some (Json.str p.2) }
  | none =>
      { rtype := "info"
        message := some (Json.str "I'm primarily a database assistant, but I'll do my best to help! Could you rephrase your question, or ask me about your database data?") }

/-- A double-quoted SQL identifier. -/
def dq (s : String) : String := "\"" ++ s ++ "\""

/-- A single-quoted SQL string literal. -/
def sqlq (s : String) : String := String.mk [squote] ++ s ++ String.mk [squote]

/-- `PremiumNLPService._fallback_update`.  Note the context update inside it
calls `self.context.update(target, f"update {col_phrase}", sql)` — binding
`username := target`, `table := "update {col_phrase}"`, `query := sql`,
`sql := None` — transcribed as-is. -/
def fallbackUpdate (mem : Mem) (lower : String) (target : String)
    (colNames : List String) : TResult × Mem :=
  let tryPat := fun (pat : Rx) =>
    match rsearch pat lower.data with
    | none => none
    | some caps =>
        match capGet caps 1, capGet caps 2, capGet caps 3 with
        | some g1, some oldVal, some newVal =>
            let colPhrase := pyStrip g1
            (match matchColumn colPhrase colNames, findNameCol colNames with
            | some setCol, some whereCol =>
                let sql := "UPDATE " ++ dq target ++ " SET " ++ dq setCol ++ " = " ++
                  sqlq newVal ++ " WHERE " ++ dq whereCol ++ " = " ++ sqlq oldVal
                some ({ rtype := "sql"
                        query := some (Json.str sql)
                        queryType := some (Json.str "WRITE")
                        explanation := some (Json.str
                          ("Updating " ++ setCol ++ " to " ++ sqlq newVal ++ " where " ++
                            whereCol ++ " = " ++ sqlq oldVal)) },
                      ctxUpdate mem target (some ("update " ++ colPhrase)) sql none)
            | _, _ => none)
        | _, _, _ => none
  match tryPat updPat1 with
  | some res => res
  | none =>
      match tryPat updPat2 with
      | some res => res
      | none =>
          ({ rtype := "clarification"
             message := some (Json.str "Please specify the update clearly. Example: update LAST_NAME of 'John' to 'Smith'") },
           mem)

/-- The trailing SELECT construction of `_fallback_process` (default
full-table select with ORDER BY / LIMIT detection). -/
def fallbackSelect (mem : Mem) (userQuery lower : String) (target : String)
    (colNames : List String) : TResult × Mem :=
  let sql := "SELECT * FROM " ++ dq target
  let sql :=
    if containsStr lower " by " || containsStr lower "order by" || containsStr lower "sort by" then
      match colNames.find? (fun col => containsStr lower (toLowerStr col)) with
      | some col =>
          sql ++ " ORDER BY " ++ dq col ++
          (if ["desc", "high", "top", "max", "most"].any (fun kw => containsStr lower kw)
           then " DESC" else "")
      | none => sql
    else sql
  let sql :=
    match rsearch limitPat lower.data with
    | some caps =>
        (match capGet caps 1 with
        | some limitVal =>
            let sql :=
              if !containsStr (toLowerStr sql) "order by" &&
                 (containsStr lower "top" || containsStr lower "highest") then
                match colNames.find? (fun col =>
                    ["salary", "amount", "price", "wage", "total"].any
                      (fun kw => containsStr (toLowerStr col) kw)) with
                | some col => sql ++ " ORDER BY " ++ dq col ++ " DESC"
                | none => sql
              else sql
            sql ++ " LIMIT " ++ limitVal
        | none => sql)
    | none => sql
  ({ rtype := "sql"
     query := some (Json.str sql)
     queryType := some (Json.str "SELECT")
     explanation := some (Json.str ("Showing results from " ++ target ++ " (Fallback Mode)")) },
   ctxUpdate mem target (some userQuery) sql none)

/-- `PremiumNLPService._fallback_process`: the deterministic local matcher
(never invoked by `process_query`; see the C5 theorems).  Context updates
inside it use the 3-positional-argument call
`self.context.update(target, user_query, sql)`, binding `username := target`
and `table := user_query` — transcribed as-is. -/
def fallbackProcess (mem : Mem) (userQuery : String) (schema : Schema)
    (activeTable : Option String) : TResult × Mem :=
  let lower := pyStrip (toLowerStr userQuery)
  let tableNames := schema.tables.map (fun t => t.name)
  let target :=
    match tableNames.find? (fun t => containsStr lower (toLowerStr t)) with
    | some t => some t
    | none => activeTable
  if ["hello", "hi ", "hey", "good morning", "good evening"].any
      (fun kw => containsStr lower kw) then
    ({ rtype := "info"
       message := some (Json.str "Hello! I'm your AI database assistant. Ask me anything about your database - I can run queries, explain concepts, and help you explore your data.") },
     mem)
  else if ["what is", "what are", "explain", "define", "how does", "why is", "tell me about"].any
      (fun p => startsWithStr lower p) then
    (answerQuestionFallback lower, mem)
  else if ["what tables", "show tables", "list tables", "which tables"].any
      (fun kw => containsStr lower kw) then
    ({ rtype := "info"
       message := some (Json.str ("Available tables: " ++ String.intercalate ", " tableNames)) },
     mem)
  else
    let target :=
      if pyTruthy target then target
      else if tableNames.length = 1 then tableNames.head? else none
    match target with
    | none =>
        ({ rtype := "clarification"
           message := some (Json.str ("Which table would you like to query? Available: " ++
             String.intercalate ", " tableNames)) },
         mem)
    | some target =>
        let colNames :=
          match schema.tables.find? (fun t => t.name = target) with
          | some t => t.columns.map (fun c => c.name)
          | none => []
        if containsStr lower "update" then
          fallbackUpdate mem lower target colNames
        else if containsStr lower "delete" || containsStr lower "remove" then
          ({ rtype := "clarification"
             message := some (Json.str ("Please specify which records to delete. Example: delete from " ++
               target ++ " where EMPLOYEE_ID = 5")) },
           mem)
        else if containsStr lower "count" || containsStr lower "how many" then
          let sql := "SELECT COUNT(*) as count FROM " ++ dq target
          ({ rtype := "sql"
             query := some (Json.str sql)
             queryType := some (Json.str "SELECT")
             explanation := some (Json.str ("Counting records in " ++ target)) },
           ctxUpdate mem target (some userQuery) sql none)
        else
          match findNameCol colNames with
          | some nameCol =>
              let startsM := rsearch startsPat lower.data
              let endsM := rsearch endsPat lower.data
              if startsM.isSome || endsM.isSome then
                let startCond :=
                  match startsM.bind (fun caps => capGet caps 1) with
                  | some p =>
                      let prefixV := toUpperStr p
                      [("UPPER(" ++ dq nameCol ++ ") LIKE " ++ sqlq (prefixV ++ "%"),
                        "starts with " ++ sqlq prefixV)]
                  | none => ([] : List (String × String))
                let endCond :=
                  match endsM.bind (fun caps => capGet caps 1) with
                  | some p =>
                      let suffixV := toUpperStr p
                      [("UPPER(" ++ dq nameCol ++ ") LIKE " ++ sqlq ("%" ++ suffixV),
                        "ends with " ++ sqlq suffixV)]
                  | none => ([] : List (String × String))
                let conds : List (String × String) := startCond ++ endCond
                let sql := "SELECT * FROM " ++ dq target ++ " WHERE " ++
                  String.intercalate " AND " (conds.map (fun p => p.1))
                let sql :=
                  match rsearch limitPat lower.data with
                  | some caps =>
                      (match capGet caps 1 with
                      | some limitVal => sql ++ " LIMIT " ++ limitVal
                      | none => sql)
                  | none => sql
                ({ rtype := "sql"
                   query := some (Json.str sql)
                   queryType := some (Json.str "SELECT")
                   explanation := some (Json.str ("Filtering " ++ target ++ " where " ++ nameCol ++
                     " " ++ String.intercalate " and " (conds.map (fun p => p.2)))) },
                 ctxUpdate mem target (some userQuery) sql none)
              else fallbackSelect mem userQuery lower target colNames
          | none => fallbackSelect mem userQuery lower target colNames

/- ==================== concrete instances used by the claims ==================== -/

/-- The `EMPLOYEE(ID, FIRST_NAME, LAST_NAME, SALARY)` schema of Scenario A. -/
def schemaEmp : Schema :=
  ⟨[⟨"EMPLOYEE",
     [⟨"ID", "INTEGER", true, false⟩,
      ⟨"FIRST_NAME", "TEXT", false, false⟩,
      ⟨"LAST_NAME", "TEXT", false, false⟩,
      ⟨"SALARY", "REAL", false, false⟩], some 15⟩]⟩

/-- A two-entry credential pool (both entries pass the `_load_api_keys`
filter). -/
def poolTwo : List String := ["AAAAAAAAAAA", "BBBBBBBBBBB"]

/-- A one-table schema for provider-loop scenarios. -/
def schemaOneT : Schema := ⟨[⟨"T", [⟨"ID", "INTEGER", true, false⟩], none⟩]⟩

/-- A provider that always fails with a rate-limit-classified error. -/
def always429 : String → Nat → Except String String :=
  fun _ _ => Except.error "429 RESOURCE_EXHAUSTED"

/-- Scenario C's raw provider output (the delimited plain-text format). -/
def scenarioCRaw : String := "SQL_QUERY: null\nEXPLANATION: Hello! How can I help?"

/-- A provider returning a syntactically valid `sql` JSON object whose SQL
references a nonexistent column. -/
def badColumnRaw : String :=
  "\x7b\"type\": \"sql\", \"query\": \"SELECT * FROM \\\"EMPLOYEE\\\" WHERE \\\"NO_SUCH_COL\\\" = 1\", \"queryType\": \"SELECT\", \"explanation\": \"x\", \"target_table\": \"EMPLOYEE\"\x7d"

/-- The four result tags of the `TranslationResult` union. -/
def fourTypes : List String := ["sql", "info", "clarification", "error"]

/- ==================== helper lemmas ==================== -/

/-- Successive indices visited by `n` consecutive `_rotate_key` calls. -/
def rotTrace (keys : List String) (idx : Nat) : Nat → List Nat
  | 0 => []
  | n + 1 => (rotateKey keys idx).2 :: rotTrace keys (rotateKey keys idx).2 n

theorem rotTrace_eq (keys : List String) (h : 1 < keys.length) :
    ∀ (n idx : Nat),
      rotTrace keys idx n = (List.range n).map (fun k => (idx + 1 + k) % keys.length) := by
  intro n
  induction n with
  | zero => intro idx; rfl
  | succ n ih =>
      intro idx
      have hcond : ¬(keys = [] ∨ keys.length ≤ 1) := by
        rintro (rfl | hle)
        · simp at h
        · omega
      have hrot : rotateKey keys idx = (true, (idx + 1) % keys.length) := by
        simp [rotateKey, hcond]
      rw [List.range_succ_eq_map]
      simp only [rotTrace, hrot, ih, List.map_cons, List.map_map]
      refine congrArg₂ List.cons (by norm_num) ?_
      apply List.map_congr_left
      intro k _
      have h1 : (idx + 1) % keys.length + 1 + k = (idx + 1) % keys.length + (1 + k) := by omega
      have h2 : idx + 1 + (1 + k) = idx + 1 + (k + 1) := by omega
      rw [Function.comp_apply, h1, Nat.mod_add_mod, h2]

theorem rotTrace_mem_lt (keys : List String) (h : 1 < keys.length) (n idx : Nat) :
    ∀ x ∈ rotTrace keys idx n, x < keys.length := by
  intro x hx
  rw [rotTrace_eq keys h] at hx
  obtain ⟨k, _, rfl⟩ := List.mem_map.mp hx
  exact Nat.mod_lt _ (by omega)

theorem rotTrace_nodup (keys : List String) (h : 1 < keys.length) (idx : Nat) :
    (rotTrace keys idx keys.length).Nodup := by
  rw [rotTrace_eq keys h]
  apply List.Nodup.map_on _ (List.nodup_range _)
  intro k1 h1 k2 h2 heq
  have hk1 : k1 < keys.length := List.mem_range.mp h1
  have hk2 : k2 < keys.length := List.mem_range.mp h2
  have hme : idx + 1 + k1 ≡ idx + 1 + k2 [MOD keys.length] := heq
  have := (Nat.ModEq.add_left_cancel (Nat.ModEq.refl (idx + 1)) hme)
  calc k1 = k1 % keys.length := (Nat.mod_eq_of_lt hk1).symm
    _ = k2 % keys.length := this
    _ = k2 := Nat.mod_eq_of_lt hk2

theorem rotTrace_covers (keys : List String) (h : 1 < keys.length) (idx : Nat) :
    ∀ j < keys.length, j ∈ rotTrace keys idx keys.length := by
  intro j hj
  have hlen : (rotTrace keys idx keys.length).length = keys.length := by
    rw [rotTrace_eq keys h]; simp
  have hsub : (rotTrace keys idx keys.length).toFinset ⊆ Finset.range keys.length := by
    intro x hx
    exact Finset.mem_range.mpr (rotTrace_mem_lt keys h _ idx x (List.mem_toFinset.mp hx))
  have hcard : (rotTrace keys idx keys.length).toFinset.card = keys.length := by
    rw [List.toFinset_card_of_nodup (rotTrace_nodup keys h idx), hlen]
  have heq : (rotTrace keys idx keys.length).toFinset = Finset.range keys.length :=
    Finset.eq_of_subset_of_card_le hsub (by rw [hcard]; simp)
  have : j ∈ (rotTrace keys idx keys.length).toFinset := by
    rw [heq]; exact Finset.mem_range.mpr hj
  exact List.mem_toFinset.mp this

/-- A single `ContextMemory.update` leaves the updated user with at most 10
history entries, whatever the previous state. -/
theorem ctxUpdate_hist_le_ten (m : Mem) (u : String) (t : Option String)
    (q : String) (s : Option String) :
    ((ctxUpdate m u t q s) u).history.length ≤ 10 := by
  simp only [ctxUpdate, eq_self_iff_true, if_true]
  split <;>
  · split
    · simp only [takeLast, List.length_drop, List.length_append, List.length_cons]
      omega
    · next hlen =>
        simp only [gt_iff_lt, not_lt, List.length_append, List.length_cons] at hlen
        simp only [List.length_append, List.length_cons]
        omega

/-- A sequence of `ContextMemory.update` calls, applied in order. -/
def applyUpdates (ops : List (String × Option String × String × Option String))
    (m : Mem) : Mem :=
  ops.foldl (fun acc op => ctxUpdate acc op.1 op.2.1 op.2.2.1 op.2.2.2) m

theorem applyUpdates_hist_le_ten :
    ∀ (ops : List (String × Option String × String × Option String)) (m : Mem),
      (∀ v, (m v).history.length ≤ 10) →
      ∀ v, ((applyUpdates ops m) v).history.length ≤ 10 := by
  intro ops
  induction ops with
  | nil => intro m hm v; exact hm v
  | cons op ops ih =>
      intro m hm v
      refine ih _ (fun w => ?_) v
      by_cases hw : w = op.1
      · subst hw
        exact ctxUpdate_hist_le_ten m op.1 op.2.1 op.2.2.1 op.2.2.2
      · simpa [ctxUpdate, hw] using hm w

/- ==================== claim theorems ==================== -/

/-- Claim C6: on a pool of size N > 1 every `_rotate_key()` call returns
true and N consecutive rotations visit every index in [0, N) exactly once
(no duplicates, full coverage, N entries); on a pool of size ≤ 1 the call
returns false and leaves the index unchanged; on a non-empty pool the index
stays in [0, N). -/
theorem c6_rotate_key (keys : List String) (idx : Nat) :
    (1 < keys.length →
      (rotateKey keys idx).1 = true ∧
      (rotTrace keys idx keys.length).Nodup ∧
      (rotTrace keys idx keys.length).length = keys.length ∧
      (∀ j < keys.length, j ∈ rotTrace keys idx keys.length)) ∧
    (keys.length ≤ 1 → rotateKey keys idx = (false, idx)) ∧
    (keys ≠ [] → idx < keys.length → (rotateKey keys idx).2 < keys.length) := by
  refine ⟨fun h => ?_, fun h => ?_, fun hne hlt => ?_⟩
  · have hcond : ¬(keys = [] ∨ keys.length ≤ 1) := by
      rintro (rfl | hle)
      · simp at h
      · omega
    refine ⟨by simp [rotateKey, hcond], rotTrace_nodup keys h idx, ?_,
      rotTrace_covers keys h idx⟩
    rw [rotTrace_eq keys h]; simp
  · have hcond : keys = [] ∨ keys.length ≤ 1 := Or.inr h
    simp [rotateKey, hcond]
  · unfold rotateKey
    split
    · exact hlt
    · next hcond =>
        have : 0 < keys.length := by
          rcases Nat.eq_zero_or_pos keys.length with h0 | h1
          · exact absurd (Or.inl (List.length_eq_zero.mp h0)) hcond
          · exact h1
        exact Nat.mod_lt _ this

/-- Witness for C6 at a pool of three keys (and the degenerate pools for the
other conjuncts). -/
theorem c6_rotate_key_witness :
    ((rotateKey ["a", "b", "c"] 0).1 = true ∧
      (rotTrace ["a", "b", "c"] 0 3).Nodup ∧
      (rotTrace ["a", "b", "c"] 0 3).length = 3 ∧
      (∀ j < 3, j ∈ rotTrace ["a", "b", "c"] 0 3)) ∧
    rotateKey ["a"] 0 = (false, 0) ∧
    (rotateKey ["a", "b"] 1).2 < 2 := by
  have h1 := (c6_rotate_key ["a", "b", "c"] 0).1 (by decide)
  have h2 := (c6_rotate_key ["a"] 0).2.1 (by decide)
  have h3 := (c6_rotate_key ["a", "b"] 1).2.2 (by decide) (by decide)
  exact ⟨h1, h2, h3⟩

/-- Claim C7: `ContextMemory.update` with `table = None` never changes the
active table; after any single update the updated user's history holds at
most 10 entries, and so after any sequence of updates from a fresh memory;
trimming keeps a suffix of the appended history (oldest entries are
discarded first). -/
theorem c7_context_memory :
    (∀ (m : Mem) (u q : String) (s : Option String),
      getActiveTable (ctxUpdate m u none q s) u = getActiveTable m u) ∧
    (∀ (m : Mem) (u : String) (t : Option String) (q : String) (s : Option String),
      ((ctxUpdate m u t q s) u).history.length ≤ 10) ∧
    (∀ (ops : List (String × Option String × String × Option String)) (u : String),
      ((applyUpdates ops initMem) u).history.length ≤ 10) ∧
    (∀ (m : Mem) (u : String) (t : Option String) (q : String) (s : Option String),
      List.IsSuffix (((ctxUpdate m u t q s) u).history) ((m u).history ++ [⟨q, s, t⟩])) := by
  refine ⟨fun m u q s => ?_, ctxUpdate_hist_le_ten,
    fun ops u => applyUpdates_hist_le_ten ops initMem (fun _ => by simp [initMem]) u,
    fun m u t q s => ?_⟩
  · simp [ctxUpdate, getActiveTable, pyTruthy]
  · simp only [ctxUpdate, eq_self_iff_true, if_true]
    split <;>
    · split
      · exact List.drop_suffix _ _
      · exact List.suffix_refl _

/-- Claim C10: an update for user `u` leaves every other user's stored
context — and hence their active table and summary — unchanged. -/
theorem c10_update_frame (m : Mem) (u v : String) (t : Option String)
    (q : String) (s : Option String) (h : v ≠ u) :
    (ctxUpdate m u t q s) v = m v ∧
    getActiveTable (ctxUpdate m u t q s) v = getActiveTable m v ∧
    getSummary (ctxUpdate m u t q s) v = getSummary m v := by
  have h1 : (ctxUpdate m u t q s) v = m v := by simp [ctxUpdate, h]
  refine ⟨h1, ?_, ?_⟩
  · unfold getActiveTable; rw [h1]
  · unfold getSummary; rw [h1]

/-- Witness for C10 at concrete users `alice` and `bob`. -/
theorem c10_update_frame_witness :
    (ctxUpdate initMem "alice" (some "T") "q" none) "bob" = initMem "bob" ∧
    getActiveTable (ctxUpdate initMem "alice" (some "T") "q" none) "bob" =
      getActiveTable initMem "bob" ∧
    getSummary (ctxUpdate initMem "alice" (some "T") "q" none) "bob" =
      getSummary initMem "bob" :=
  c10_update_frame initMem "alice" "bob" (some "T") "q" none (by decide)

/-- Counterexample for C8: the key loader does not de-duplicate — a keys
file with the same valid key twice yields a pool with both copies. -/
theorem c8_counterexample :
    loadApiKeys true ["AAAAAAAAAAA", "AAAAAAAAAAA"] none = ["AAAAAAAAAAA", "AAAAAAAAAAA"] ∧
    ¬(loadApiKeys true ["AAAAAAAAAAA", "AAAAAAAAAAA"] none).Nodup := by
  exact ⟨by decide, by decide⟩

/-- Claim C8 (amended): the loader returns the keys-file list with empty,
placeholder, and short (≤ 10 characters) entries filtered out, preserving
order and multiplicity (duplicates are NOT removed); when the file is
missing or no entry survives the filter, it falls back to the single
environment key when that is truthy and non-placeholder, and otherwise
yields the empty pool. -/
theorem c8_amended (fileExists : Bool) (fileKeys : List String) (envKey : Option String) :
    (fileExists = true → fileKeys.filter validKey ≠ [] →
      (loadApiKeys fileExists fileKeys envKey).Sublist fileKeys ∧
      (∀ k ∈ loadApiKeys fileExists fileKeys envKey, validKey k = true) ∧
      (∀ k, validKey k = true →
        (loadApiKeys fileExists fileKeys envKey).count k = fileKeys.count k)) ∧
    ((fileExists = false ∨ fileKeys.filter validKey = []) →
      loadApiKeys fileExists fileKeys envKey =
        (match envKey with
        | some e => if e ≠ "" ∧ !containsStr (toUpperStr e) "PASTE" then [e] else []
        | none => [])) := by
  constructor
  · intro hfe hne
    have hr : loadApiKeys fileExists fileKeys envKey = fileKeys.filter validKey := by
      unfold loadApiKeys
      rw [if_pos ⟨by rw [hfe], hne⟩]
    refine ⟨hr ▸ List.filter_sublist _, ?_, ?_⟩
    · intro k hk; rw [hr] at hk; exact (List.mem_filter.mp hk).2
    · intro k hv; rw [hr]; simp [List.count_filter, hv]
  · intro hor
    unfold loadApiKeys
    rw [if_neg]
    rintro ⟨h1, h2⟩
    rcases hor with hfe | hne
    · rw [hfe] at h1; cases h1
    · exact h2 hne

/-- Witness for C8 (amended) at a concrete singleton keys file and,
separately, the environment fallback path. -/
theorem c8_amended_witness :
    ((loadApiKeys true ["AAAAAAAAAAA"] none).Sublist ["AAAAAAAAAAA"] ∧
      (∀ k ∈ loadApiKeys true ["AAAAAAAAAAA"] none, validKey k = true) ∧
      (∀ k, validKey k = true →
        (loadApiKeys true ["AAAAAAAAAAA"] none).count k =
          (["AAAAAAAAAAA"] : List String).count k)) ∧
    loadApiKeys false [] (some "CCCCCCCCCCC") = ["CCCCCCCCCCC"] := by
  refine ⟨(c8_amended true ["AAAAAAAAAAA"] none).1 rfl (by decide), ?_⟩
  have h2 := (c8_amended false [] (some "CCCCCCCCCCC")).2 (Or.inl rfl)
  rw [h2]
  decide

/-- Claim C9: on the `EMPLOYEE(ID, FIRST_NAME, LAST_NAME, SALARY)` schema,
the fallback matcher on "show employees starting with S" with no active
table resolves the target to EMPLOYEE and produces exactly
`SELECT * FROM "EMPLOYEE" WHERE UPPER("FIRST_NAME") LIKE 'S%'`. -/
theorem c9_fallback_scenario_a :
    (fallbackProcess initMem "show employees starting with S" schemaEmp none).1 =
      { rtype := "sql"
        query := some (Json.str "SELECT * FROM \"EMPLOYEE\" WHERE UPPER(\"FIRST_NAME\") LIKE 'S%'")
        queryType := some (Json.str "SELECT")
        explanation := some (Json.str "Filtering EMPLOYEE where FIRST_NAME starts with 'S'") } := by
  rfl

/-- Counterexample for C1: the parser has no null-marker normalization and
no delimited-format support.  The delimited Scenario C text does not parse
to the claimed info result (it raises a JSON decode error), and a JSON sql
object whose query is the literal string "null" parses to a `sql` result. -/
theorem c1_counterexample :
    parseLLMResponse scenarioCRaw ≠
      Except.ok { rtype := "info", message := some (Json.str "Hello! How can I help?") } ∧
    parseLLMResponse "\x7b\"type\": \"sql\", \"query\": \"null\", \"explanation\": \"Hello! How can I help?\"\x7d" =
      Except.ok { rtype := "sql", query := some (Json.str "null")
                  queryType := some (Json.str "SELECT")
                  explanation := some (Json.str "Hello! How can I help?")
                  target_table := some Json.null } := by
  constructor
  · have h : parseLLMResponse scenarioCRaw = Except.error "Expecting value" := rfl
    rw [h]
    intro hc
    exact Except.noConfusion hc
  · rfl

/-- Claim C1 (amended): `_parse_llm_response` accepts only (optionally
fenced) JSON.  A null-marker sql segment is NOT reclassified: a JSON sql
object with query "null" yields a `sql` result carrying "null"; the
delimited `SQL_QUERY:/EXPLANATION:` text raises a JSON decode exception,
which `_llm_process` catches and converts into an `error` result (never
`info`). -/
theorem c1_amended :
    parseLLMResponse scenarioCRaw = Except.error "Expecting value" ∧
    (∃ r, parseLLMResponse "```json\n\x7b\"type\": \"sql\", \"query\": \"null\"\x7d\n```" =
        Except.ok r ∧ r.rtype = "sql" ∧ r.query = some (Json.str "null")) ∧
    (∃ out, llmProcess ["AAAAAAAAAAA"] (fun _ _ => Except.ok scenarioCRaw) "hi"
        schemaOneT none [] "u" initMem 0 = Except.ok out ∧
      out.result.rtype = "error") := by
  refine ⟨rfl,
    ⟨{ rtype := "sql", query := some (Json.str "null")
       queryType := some (Json.str "SELECT")
       explanation := some (Json.str "Executing query")
       target_table := some Json.null }, rfl, rfl, rfl⟩,
    ⟨⟨exhaustedResult "Expecting value", 0, 0,
      [("gemini-1.5-flash-latest", 0), ("gemini-1.5-flash-8b", 0)], initMem⟩, rfl, rfl⟩⟩

/-- Claim C5 (code bug): with no provider client, `process_query` makes no
provider call but answers with the hardcoded unavailable-`error` dict —
`_fallback_process` (which would answer Scenario A with a `sql` result) is
never invoked. -/
theorem c5_no_fallback_bug :
    (∀ (keys : List String) (idx : Nat) (provider : String → Nat → Except String String)
        (mem : Mem) (q : String) (sch : Schema) (hist : List Json)
        (sel : Option String) (u : String),
      processQuery false keys idx provider mem q sch hist sel u =
        Except.ok ⟨unavailableResult, mem, idx, []⟩) ∧
    unavailableResult.rtype = "error" ∧
    (fallbackProcess initMem "show employees starting with S" schemaEmp none).1.rtype = "sql" := by
  exact ⟨fun keys idx provider mem q sch hist sel u => rfl, rfl, rfl⟩

/-- Claim C2 (code bug): `query_nl` passes `db_path=`, which
`process_query` does not declare, so the call raises `TypeError` before any
provider or validation work; and even along the intended path there is no
validation feedback loop — a generated SQL result is returned after exactly
one provider call, and an execution failure merely rewrites the result to an
`error` in place, with zero re-prompts. -/
theorem c2_no_retry_bug :
    "db_path" ∈ queryNlCallKwargs ∧
    "db_path" ∉ processQueryParams ∧
    queryNlCallBindsOk = false ∧
    (∀ (client : Bool) (keys : List String) (idx : Nat)
        (provider : String → Nat → Except String String) (mem : Mem)
        (q : String) (sch : Schema) (hist : List Json) (sel : Option String)
        (u : String) (execQ : String → Except String Nat),
      queryNl client keys idx provider mem q sch hist sel u execQ =
        Except.error "TypeError: process_query() got an unexpected keyword argument") ∧
    (∃ out, processQuery true poolTwo 0 (fun _ _ => Except.ok badColumnRaw) initMem
        "show data" schemaEmp [] none "u" = Except.ok out ∧
      out.calls.length = 1 ∧
      out.result.rtype = "sql" ∧
      (queryNlExec out.result (fun _ => Except.error "no such column: NO_SUCH_COL")).rtype =
        "error" ∧
      (queryNlExec out.result (fun _ => Except.error "no such column: NO_SUCH_COL")).error_field =
        some "no such column: NO_SUCH_COL") := by
  refine ⟨by decide, by decide, by decide,
    fun client keys idx provider mem q sch hist sel u execQ => rfl,
    ⟨⟨{ rtype := "sql"
        query := some (Json.str "SELECT * FROM \"EMPLOYEE\" WHERE \"NO_SUCH_COL\" = 1")
        queryType := some (Json.str "SELECT")
        explanation := some (Json.str "x")
        target_table := some (Json.str "EMPLOYEE") },
      ctxUpdate initMem "u" (some "EMPLOYEE") "show data"
        (some "SELECT * FROM \"EMPLOYEE\" WHERE \"NO_SUCH_COL\" = 1"),
      0, [("gemini-1.5-flash-latest", 0)]⟩, rfl, rfl, rfl, rfl, rfl⟩⟩

theorem classifyParsed_type_mem (data : Json) (r : TResult)
    (h : classifyParsed data = Except.ok r) : r.rtype ∈ fourTypes := by
  unfold classifyParsed at h
  split at h
  · split at h
    · split at h
      · exact Except.noConfusion h
      · injection h with h; subst h; simp [fourTypes]
    · injection h with h; subst h; simp [fourTypes]
    · injection h with h; subst h; simp [fourTypes]
    · injection h with h; subst h; simp [fourTypes]
    · injection h with h; subst h; simp [fourTypes]
  · exact Except.noConfusion h

theorem parseLLMResponse_type_mem (raw : String) (r : TResult)
    (h : parseLLMResponse raw = Except.ok r) : r.rtype ∈ fourTypes := by
  unfold parseLLMResponse at h
  split at h
  · exact Except.noConfusion h
  · exact classifyParsed_type_mem _ _ h

theorem llmProcessF_no_escape (fuel : Nat) :
    ∀ (keys : List String) (provider : String → Nat → Except String String)
      (q : String) (sch : Schema) (act : Option String) (hist : List Json)
      (u : String) (m : Mem) (idx retry : Nat) (model : String) (p : String),
      buildPrompt q sch act hist u m = Except.ok p →
      ∃ out, llmProcessF fuel keys provider q sch act hist u m idx retry model =
        Except.ok out := by
  induction fuel with
  | zero =>
      intro keys provider q sch act hist u m idx retry model p hbp
      exact ⟨fuelOut, rfl⟩
  | succ n ih =>
      intro keys provider q sch act hist u m idx retry model p hbp
      simp only [llmProcessF]
      rw [hbp]
      repeat' split
      all_goals try exact ⟨_, rfl⟩
      all_goals rename_i heqrec
      all_goals try exact Except.noConfusion heqrec
      all_goals
        (obtain ⟨o, ho⟩ := ih keys provider q sch act hist u m _ _ _ p hbp
         rw [ho] at heqrec
         exact Except.noConfusion heqrec)

def llmMeasure (keys : List String) (modelName : String) (retryCount : Nat) : Nat :=
  if !startsWithStr modelName "gemini-1.5" then 1
  else if modelName = "gemini-1.5-flash-8b" then (keys.length - retryCount) + 1
  else (keys.length - retryCount) + keys.length + 2

def rotBound (keys : List String) (modelName : String) (retryCount : Nat) : Nat :=
  if !startsWithStr modelName "gemini-1.5" then 0
  else if modelName = "gemini-1.5-flash-8b" then (keys.length - 1) - retryCount
  else ((keys.length - 1) - retryCount) + (keys.length - 1)

theorem llmMeasure_pos (keys : List String) (model : String) (retry : Nat) :
    1 ≤ llmMeasure keys model retry := by
  unfold llmMeasure
  split
  · omega
  · split <;> omega

theorem llmProcessF_ok_spec (fuel : Nat) :
    ∀ (keys : List String) (provider : String → Nat → Except String String)
      (q : String) (sch : Schema) (act : Option String) (hist : List Json)
      (u : String) (m : Mem) (idx retry : Nat) (model : String) (out : LLMOut),
      llmMeasure keys model retry ≤ fuel →
      llmProcessF fuel keys provider q sch act hist u m idx retry model = Except.ok out →
      out.result.rtype ∈ fourTypes ∧ out.rotations ≤ rotBound keys model retry := by
  induction fuel with
  | zero =>
      intro keys provider q sch act hist u m idx retry model out hm heq
      have := llmMeasure_pos keys model retry
      omega
  | succ n ih =>
      intro keys provider q sch act hist u m idx retry model out hm heq
      simp only [llmProcessF] at heq
      split at heq
      · exact Except.noConfusion heq
      · split at heq
        · rename_i r hatt
          split at heq <;>
          · injection heq with heq2
            subst heq2
            split at hatt
            · exact Except.noConfusion hatt
            · exact ⟨parseLLMResponse_type_mem _ _ hatt, Nat.zero_le _⟩
        · rename_i e hatt
          split at heq
          · rename_i hst
            split at heq
            · rename_i hgd
              split at heq
              · rename_i idx2 hrot
                split at heq
                · exact Except.noConfusion heq
                · rename_i out2 hrec
                  injection heq with heq2
                  subst heq2
                  have hg2 := hgd.2
                  have hm2 : llmMeasure keys model (retry + 1) ≤ n := by
                    unfold llmMeasure at hm ⊢
                    simp only [hst, Bool.not_true, Bool.false_eq_true, if_false] at hm ⊢
                    by_cases h8 : model = "gemini-1.5-flash-8b" <;>
                      simp only [h8, if_true, if_false] at hm ⊢ <;> omega
                  obtain ⟨hty, hrb⟩ :=
                    ih keys provider q sch act hist u m idx2 (retry + 1) model out2 hm2 hrec
                  refine ⟨hty, ?_⟩
                  unfold rotBound at hrb ⊢
                  simp only [hst, Bool.not_true, Bool.false_eq_true, if_false] at hrb ⊢
                  by_cases h8 : model = "gemini-1.5-flash-8b" <;>
                    simp only [h8, if_true, if_false] at hrb ⊢ <;> omega
              · injection heq with heq2
                subst heq2
                exact ⟨by simp [exhaustedResult, fourTypes], Nat.zero_le _⟩
            · rename_i hgd
              split at heq
              · rename_i h8n
                split at heq
                · exact Except.noConfusion heq
                · rename_i out2 hrec
                  injection heq with heq2
                  subst heq2
                  have hstb : startsWithStr "gemini-1.5-flash-8b" "gemini-1.5" = true := by
                    decide
                  have hm2 : llmMeasure keys "gemini-1.5-flash-8b" 0 ≤ n := by
                    unfold llmMeasure at hm ⊢
                    simp only [hst, hstb, h8n, Bool.not_true, Bool.false_eq_true, if_false,
                      if_true] at hm ⊢
                    omega
                  obtain ⟨hty, hrb⟩ :=
                    ih keys provider q sch act hist u m idx 0 "gemini-1.5-flash-8b" out2 hm2 hrec
                  refine ⟨hty, ?_⟩
                  unfold rotBound at hrb ⊢
                  simp only [hst, hstb, h8n, Bool.not_true, Bool.false_eq_true, if_false,
                    if_true] at hrb ⊢
                  omega
              · injection heq with heq2
                subst heq2
                exact ⟨by simp [exhaustedResult, fourTypes], Nat.zero_le _⟩
          · rename_i hst
            injection heq with heq2
            subst heq2
            exact ⟨by simp [exhaustedResult, fourTypes], Nat.zero_le _⟩

/-- The measure at the entry point of `_llm_process`
(`model_name = "gemini-1.5-flash"`, `retry_count = 0`) equals the fuel
`llmProcess` supplies. -/
theorem llmMeasure_entry (keys : List String) :
    llmMeasure keys "gemini-1.5-flash" 0 ≤ llmFuel keys := by
  have h : llmMeasure keys "gemini-1.5-flash" 0 = keys.length + keys.length + 2 := by
    unfold llmMeasure
    rw [if_neg (by decide), if_neg (by decide)]
    omega
  unfold llmFuel
  omega

/-- The rotation bound at the entry point of `_llm_process`. -/
theorem rotBound_entry (keys : List String) :
    rotBound keys "gemini-1.5-flash" 0 = (keys.length - 1) + (keys.length - 1) := by
  unfold rotBound
  rw [if_neg (by decide), if_neg (by decide)]
  omega

/-- Counterexample for C3: a conversation-history entry that is not a dict
(`["furthermore"]` in place of role/content dicts) makes `_build_prompt`
raise `AttributeError` at line 212, *before* the `try` block of
`_llm_process`, and the exception escapes `process_query`. -/
theorem c3_counterexample :
    processQuery true poolTwo 0 always429 initMem "hi" schemaOneT
      [Json.str "furthermore"] none "u" =
      Except.error "AttributeError: object has no attribute get" := rfl

/-- Claim C3 (amended): whenever prompt construction succeeds, the returned
value is one of the four TranslationResult variants and no exception from
the provider call, response parsing or retry logic escapes `process_query`
(there is no validation step); only a prompt-construction exception — raised
before the `try` block — can escape. -/
theorem c3_amended (keys : List String) (idx : Nat)
    (provider : String → Nat → Except String String) (mem : Mem)
    (q : String) (schema : Schema) (hist : List Json) (sel : Option String)
    (user : String)
    (hbp : (buildPrompt q schema (resolveActive sel mem user) hist user mem).isOk = true) :
    (∃ out, processQuery true keys idx provider mem q schema hist sel user = Except.ok out ∧
      out.result.rtype ∈ fourTypes) ∧
    (∃ out, processQuery false keys idx provider mem q schema hist sel user = Except.ok out ∧
      out.result.rtype ∈ fourTypes) := by
  constructor
  · obtain ⟨p, hp⟩ : ∃ p, buildPrompt q schema (resolveActive sel mem user) hist user mem =
        Except.ok p := by
      cases hb : buildPrompt q schema (resolveActive sel mem user) hist user mem with
      | error e => rw [hb] at hbp; exact absurd hbp (by simp [Except.isOk, Except.toBool])
      | ok p0 => exact ⟨p0, rfl⟩
    obtain ⟨lout, hl⟩ := llmProcessF_no_escape (llmFuel keys) keys provider q schema
      (resolveActive sel mem user) hist user mem idx 0 "gemini-1.5-flash" p hp
    have hspec := llmProcessF_ok_spec (llmFuel keys) keys provider q schema
      (resolveActive sel mem user) hist user mem idx 0 "gemini-1.5-flash" lout
      (llmMeasure_entry keys) hl
    refine ⟨⟨lout.result, lout.mem, lout.keyIndex, lout.calls⟩, ?_, hspec.1⟩
    show (match llmProcess keys provider q schema (resolveActive sel mem user) hist user mem idx with
      | Except.error e => Except.error e
      | Except.ok o => Except.ok (⟨o.result, o.mem, o.keyIndex, o.calls⟩ : PQOut)) =
        Except.ok ⟨lout.result, lout.mem, lout.keyIndex, lout.calls⟩
    rw [show llmProcess keys provider q schema (resolveActive sel mem user) hist user mem idx =
      Except.ok lout from hl]
  · exact ⟨⟨unavailableResult, mem, idx, []⟩, rfl, by simp [unavailableResult, fourTypes]⟩

/-- Witness for C3 (amended) at a concrete configuration whose prompt
construction succeeds. -/
theorem c3_amended_witness :
    (∃ out, processQuery true poolTwo 0 always429 initMem "hi" schemaOneT [] none "u" =
        Except.ok out ∧ out.result.rtype ∈ fourTypes) ∧
    (∃ out, processQuery false poolTwo 0 always429 initMem "hi" schemaOneT [] none "u" =
        Except.ok out ∧ out.result.rtype ∈ fourTypes) :=
  c3_amended poolTwo 0 always429 initMem "hi" schemaOneT [] none "u" rfl

/-- Counterexample for C4: with a pool of exactly 2 keys and every call
failing with a rate-limit error, the engine does not stop after one rotation:
it rotates once on `gemini-1.5-flash`, switches to `gemini-1.5-flash-8b`,
rotates once more, and makes 4 provider calls in total — 2 rotations,
exceeding poolSize − 1 = 1. -/
theorem c4_counterexample :
    llmProcess poolTwo always429 "q" schemaOneT none [] "u" initMem 0 =
      Except.ok ⟨exhaustedResult "429 RESOURCE_EXHAUSTED", 0, 2,
        [("gemini-1.5-flash-latest", 0), ("gemini-1.5-flash-latest", 1),
         ("gemini-1.5-flash-8b", 1), ("gemini-1.5-flash-8b", 0)], initMem⟩ ∧
    poolTwo.length - 1 < 2 := ⟨rfl, by decide⟩

/-- Claim C4 (amended): rotatable provider failures trigger at most
poolSize − 1 rotations per model tier, and the engine runs two tiers
(`gemini-1.5-flash` then `gemini-1.5-flash-8b`), so every `_llm_process`
invocation terminates with a result after at most 2·(poolSize − 1) rotations
in total (each reissue carries the same query and prompt arguments). -/
theorem c4_amended (keys : List String)
    (provider : String → Nat → Except String String) (q : String) (sch : Schema)
    (act : Option String) (hist : List Json) (u : String) (m : Mem) (idx : Nat)
    (out : LLMOut)
    (h : llmProcess keys provider q sch act hist u m idx = Except.ok out) :
    out.result.rtype ∈ fourTypes ∧ out.rotations ≤ 2 * (keys.length - 1) := by
  have hspec := llmProcessF_ok_spec (llmFuel keys) keys provider q sch act hist u m
    idx 0 "gemini-1.5-flash" out (llmMeasure_entry keys) h
  refine ⟨hspec.1, ?_⟩
  have hrb := hspec.2
  rw [rotBound_entry keys] at hrb
  omega

/-- Witness for C4 (amended) at the two-key all-rate-limited run. -/
theorem c4_amended_witness :
    (⟨exhaustedResult "429 RESOURCE_EXHAUSTED", 0, 2,
      [("gemini-1.5-flash-latest", 0), ("gemini-1.5-flash-latest", 1),
       ("gemini-1.5-flash-8b", 1), ("gemini-1.5-flash-8b", 0)], initMem⟩ : LLMOut).result.rtype ∈
      fourTypes ∧
    (⟨exhaustedResult "429 RESOURCE_EXHAUSTED", 0, 2,
      [("gemini-1.5-flash-latest", 0), ("gemini-1.5-flash-latest", 1),
       ("gemini-1.5-flash-8b", 1), ("gemini-1.5-flash-8b", 0)], initMem⟩ : LLMOut).rotations ≤
      2 * (poolTwo.length - 1) :=
  c4_amended poolTwo always429 "q" schemaOneT none [] "u" initMem 0 _ rfl
